import Mathlib

/-!
Verification of the Saturn-moon ephemeris evaluator (`src/planet/saturn/moon.rs`)
and the rise/transit/set time solver (`src/transit.rs`) of the `astro-rust`
repository, against its natural-language specification.

The Rust source computes with `f64`; the embedding below models the same
straight-line arithmetic over the exact reals `ℝ`, translating each source
function definition-for-definition (same names, same operation order).
External repository modules that the two source files merely call
(`planet`, `precess`, `time`, `angle`, `coords`, `interpol`) are modelled as
opaque service parameters, as the specification treats them as black boxes.
-/

namespace astro

noncomputable section

/-- Rust `f64::to_radians`: multiply by π and divide by 180. -/
def toRadians (x : ℝ) : ℝ := x * Real.pi / 180

/-- Rust `f64::to_degrees`: multiply by 180 and divide by π. -/
def toDegrees (x : ℝ) : ℝ := x * 180 / Real.pi

/-- Rust `y.atan2(x)`: the two-argument arctangent, modelled piecewise.
Its exact values play no role in the claims below; only its type matters. -/
def atan2 (y x : ℝ) : ℝ :=
  if 0 < x then Real.arctan (y / x)
  else if x < 0 then
    (if 0 ≤ y then Real.arctan (y / x) + Real.pi else Real.arctan (y / x) - Real.pi)
  else
    (if 0 < y then Real.pi / 2 else if y < 0 then -(Real.pi / 2) else 0)

/-- The eight classical moons of Saturn (`enum Moon` in `moon.rs`). -/
inductive Moon
  | Mimas
  | Enceladus
  | Tethys
  | Dione
  | Rhea
  | Titan
  | Hyperion
  | Iapetus

/-- The ephemeris context (`struct Info` in `moon.rs`): time offsets, shared
perturbation angles, cached sines/cosines of the two ring-plane tilt angles,
and the externally supplied Saturn geometry. -/
structure Info where
  t1 : ℝ
  t2 : ℝ
  t3 : ℝ
  t4 : ℝ
  t5 : ℝ
  t6 : ℝ
  t7 : ℝ
  t8 : ℝ
  t9 : ℝ
  t10 : ℝ
  t11 : ℝ
  W0 : ℝ
  W1 : ℝ
  W2 : ℝ
  W3 : ℝ
  W4 : ℝ
  W5 : ℝ
  W6 : ℝ
  W7 : ℝ
  W8 : ℝ
  s1 : ℝ
  c1 : ℝ
  s2 : ℝ
  c2 : ℝ
  e1 : ℝ
  lambda0 : ℝ
  beta0 : ℝ
  delta : ℝ

/-- Transcription of `create_info_struct` from `moon.rs`: the purely
time-derived context fields; the geometry fields are left at `0` exactly as
in the source's first construction phase. -/
def create_info_struct (JD : ℝ) : Info :=
  let angle1 := toRadians 28.0817
  let angle2 := toRadians 168.8112
  let t1 := JD - 2411093
  let t2 := t1 / 365.25
  let t3 := (JD - 2433282.423) / 365.25 + 1950
  let t4 := JD - 2411368
  let t5 := t4 / 365.25
  let t6 := JD - 2415020
  let t7 := t6 / 36525
  let t8 := t6 / 365.25
  let t9 := (JD - 2442000.5) / 365.25
  let t10 := JD - 2409786
  let t11 := t10 / 36525
  { t1 := t1, t2 := t2, t3 := t3, t4 := t4, t5 := t5, t6 := t6, t7 := t7,
    t8 := t8, t9 := t9, t10 := t10, t11 := t11,
    W0 := 5.095 * toRadians (t3 - 1866.39),
    W1 := toRadians (74.4 + 32.39 * t2),
    W2 := toRadians (134.3 + 92.62 * t2),
    W3 := toRadians (42 - 0.5118 * t5),
    W4 := toRadians (276.59 + 0.5118 * t5),
    W5 := toRadians (267.2635 + 1222.1136 * t7),
    W6 := toRadians (175.4762 + 1221.5515 * t7),
    W7 := toRadians (2.4891 + 0.002435 * t7),
    W8 := toRadians (113.35 - 0.2597 * t7),
    s1 := Real.sin angle1, c1 := Real.cos angle1,
    s2 := Real.sin angle2, c2 := Real.cos angle2,
    e1 := 0.05589 - 0.000346 * t7,
    lambda0 := 0, beta0 := 0, delta := 0 }

/-- The fully initialised context: the source's second construction phase
(`info.lambda0 = ...; info.beta0 = ...; info.delta = ...` in
`apprnt_rect_coords`) folded into one record update. -/
def mkInfo (JD lambda0 beta0 delta : ℝ) : Info :=
  { create_info_struct JD with lambda0 := lambda0, beta0 := beta0, delta := delta }

/-- The fixed 5-term equation-of-center series of `funroutine` (the local
variable `C` in `moon.rs`), factored out so it can be named in theorems. -/
def equationOfCenter (e M : ℝ) : ℝ :=
  e * ((2 - e * e * (0.25 - 0.0520833333 * e * e)) * Real.sin M
    + e * ((1.25 - 0.458333333 * e * e) * Real.sin (2 * M)
      + e * ((1.083333333 - 0.671875 * e * e) * Real.sin (3 * M)
        + e * (1.072917 * Real.sin (4 * M) + e * 1.142708 * Real.sin (5 * M)))))

/-- Transcription of `funroutine` (the shared Orbit Finalizer) from `moon.rs`. -/
def funroutine (e a Omega i lambda1 p : ℝ) (info : Info) : ℝ × ℝ × ℝ × ℝ :=
  let M := lambda1 - p
  let C := equationOfCenter e M
  let r := a * (1 - e * e) / (1 + e * Real.cos (M + C))
  let g := Omega - toRadians 168.8112
  let a1 := Real.sin i * Real.sin g
  let a2 := info.c1 * Real.sin i * Real.cos g - info.s1 * Real.cos i
  let gamma := Real.arcsin (Real.sqrt (a1 * a1 + a2 * a2))
  let u := atan2 a1 a2
  let w := toRadians 168.8112 + u
  let h := info.c1 * Real.sin i - info.s1 * Real.cos i * Real.cos g
  let phi := atan2 (info.s1 * Real.sin g) h
  let lambda := lambda1 + C + u - g - phi
  (lambda, gamma, w, r)

/-- Transcription of the `Mimas` orbital-element calculator from `moon.rs`. -/
def Mimas (info : Info) : ℝ × ℝ × ℝ × ℝ :=
  let L := toRadians (127.64 + 381.994497 * info.t1 - 43.57 * Real.sin info.W0
    - 0.72 * Real.sin (3 * info.W0) - 0.02144 * Real.sin (5 * info.W0))
  let p := toRadians (106.1 + 365.549 * info.t2)
  let M := L - p
  let C := toRadians (2.18287 * Real.sin M + 0.025988 * Real.sin (2 * M)
    + 0.00043 * Real.sin (3 * M))
  let lambda_1 := L + C
  let gamma_1 := toRadians 1.563
  let Omega_1 := toRadians (54.5 - 365.072 * info.t2)
  let r_1 := 3.06879 / (1 + 0.01905 * Real.cos (M + C))
  (lambda_1, gamma_1, Omega_1, r_1)

/-- Transcription of the `Enceladus` orbital-element calculator from `moon.rs`. -/
def Enceladus (info : Info) : ℝ × ℝ × ℝ × ℝ :=
  let L := toRadians (200.317 + 262.7319002 * info.t1 + 0.25667 * Real.sin info.W1
    + 0.20883 * Real.sin info.W2)
  let p := toRadians (309.107 + 123.44121 * info.t2)
  let M := L - p
  let C := toRadians (0.55577 * Real.sin M + 0.00168 * Real.sin (2 * M))
  let lambda_2 := L + C
  let gamma_2 := toRadians 0.0262
  let Omega_2 := toRadians (348 - 151.95 * info.t2)
  let r_2 := 3.94118 / (1 + 0.00485 * Real.cos (M + C))
  (lambda_2, gamma_2, Omega_2, r_2)

/-- Transcription of the `Tethys` orbital-element calculator from `moon.rs`:
a fixed circular-orbit model with constant radius `4.880998` Saturn-radii. -/
def Tethys (info : Info) : ℝ × ℝ × ℝ × ℝ :=
  let lambda_3 := toRadians (285.306 + 190.69791226 * info.t1 + 2.063 * Real.sin info.W0
    + 0.03409 * Real.sin (3 * info.W0) + 0.001015 * Real.sin (5 * info.W0))
  let gamma_3 := toRadians 1.0976
  let Omega_3 := toRadians (111.33 - 72.2441 * info.t2)
  let r_3 := (4.880998 : ℝ)
  (lambda_3, gamma_3, Omega_3, r_3)

/-- Transcription of the `Dione` orbital-element calculator from `moon.rs`. -/
def Dione (info : Info) : ℝ × ℝ × ℝ × ℝ :=
  let L := toRadians (254.712 + 131.53493193 * info.t1 - 0.0215 * Real.sin info.W1
    - 0.01733 * Real.sin info.W2)
  let p := toRadians (174.8 + 30.82 * info.t2)
  let M := L - p
  let C := toRadians (0.24717 * Real.sin M + 0.00033 * Real.sin (2 * M))
  let lambda_4 := L + C
  let gamma_4 := toRadians 0.0139
  let Omega_4 := toRadians (232 - 30.27 * info.t2)
  let r_4 := 6.24871 / (1 + 0.002157 * Real.cos (M + C))
  (lambda_4, gamma_4, Omega_4, r_4)

/-- Transcription of the `Rhea` orbital-element calculator from `moon.rs`;
it hands its raw elements to `funroutine`. -/
def Rhea (info : Info) : ℝ × ℝ × ℝ × ℝ :=
  let p1 := toRadians (342.7 + 10.057 * info.t2)
  let a1 := 0.000265 * Real.sin p1 + 0.01 * Real.sin info.W4
  let a2 := 0.000265 * Real.cos p1 + 0.01 * Real.cos info.W4
  let e := Real.sqrt (a1 * a1 + a2 * a2)
  let p := atan2 a1 a2
  let N := toRadians (345 - 10.057 * info.t2)
  let lambda1 := toRadians (359.244 + 79.6900472 * info.t1 + 0.086754 * Real.sin N)
  let i := toRadians (28.0362 + 0.346898 * Real.cos N + 0.0193 * Real.cos info.W3)
  let Omega := toRadians (168.8034 + 0.736936 * Real.sin N + 0.041 * Real.sin info.W3)
  let a := (8.725924 : ℝ)
  funroutine e a Omega i lambda1 p info

/-- The `while counter <= 6` fixed-point refinement inside the `Titan`
calculator: `titanG info Omega1 phi g0 n` is the pair `(w_dash, g)` after
`n` passes of the loop body, starting from the source's initial state
`w_dash = 0.0`, `g = W4 - Omega1 - phi`. -/
def titanG (info : Info) (Omega1 phi g0 : ℝ) : Nat → ℝ × ℝ
  | 0 => (0, info.W4 - Omega1 - phi)
  | n + 1 =>
    let w_dash := info.W4 + toRadians 0.37515
      * (Real.sin (2 * (titanG info Omega1 phi g0 n).2) - Real.sin (2 * g0))
    (w_dash, w_dash - Omega1 - phi)

/-- Transcription of the `Titan` orbital-element calculator from `moon.rs`;
its auxiliary pericenter angle is refined for exactly 6 passes (`titanG … 6`)
and the result is handed to `funroutine`. -/
def Titan (info : Info) : ℝ × ℝ × ℝ × ℝ :=
  let L := toRadians (261.1582 + 22.57697855 * info.t4 + 0.074025 * Real.sin info.W3)
  let i1 := toRadians (27.45141 + 0.295999 * Real.cos info.W3)
  let Omega1 := toRadians (168.66925 + 0.628808 * Real.sin info.W3)
  let a1 := Real.sin info.W7 * Real.sin (Omega1 - info.W8)
  let a2 := Real.cos info.W7 * Real.sin i1
    - Real.sin info.W7 * Real.cos i1 * Real.cos (Omega1 - info.W8)
  let g0 := toRadians 102.8623
  let phi := atan2 a1 a2
  let s := Real.sqrt (a1 * a1 + a2 * a2)
  let wg := titanG info Omega1 phi g0 6
  let w_dash := wg.1
  let g := wg.2
  let e1 := 0.029092 + 0.00019048 * (Real.cos (2 * g) - Real.cos (2 * g0))
  let q := 2 * (info.W5 - w_dash)
  let b1 := Real.sin i1 * Real.sin (Omega1 - info.W8)
  let b2 := Real.cos info.W7 * Real.sin i1 * Real.cos (Omega1 - info.W8)
    - Real.sin info.W7 * Real.cos i1
  let theta := atan2 b1 b2 + info.W8
  let e := e1 * (1 + 0.002778797 * Real.cos q)
  let p := w_dash + toRadians 0.159215 * Real.sin q
  let u := 2 * (info.W5 - theta) + phi
  let h := 0.9375 * e1 * e1 * Real.sin q + 0.1875 * s * s * Real.sin (2 * (info.W5 - theta))
  let lambda1 := L - toRadians 0.254744
    * (info.e1 * (Real.sin info.W6 + 0.75 * info.e1 * Real.sin (2 * info.W6)) + h)
  let i := i1 + toRadians 0.031843 * s * Real.cos u
  let Omega := Omega1 + toRadians 0.031843 * s * Real.sin u / Real.sin i1
  let a := (20.216193 : ℝ)
  funroutine e a Omega i lambda1 p info

/-- Transcription of the `Hyperion` orbital-element calculator from `moon.rs`;
its pericenter longitude `w_dash` is a closed-form series (no refinement loop)
and the result is handed to `funroutine`. -/
def Hyperion (info : Info) : ℝ × ℝ × ℝ × ℝ :=
  let nu := toRadians (92.39 + 0.5621071 * info.t6)
  let et := toRadians (148.19 - 19.18 * info.t8)
  let theta := toRadians (184.8 - 35.41 * info.t9)
  let theta1 := theta - toRadians 7.5
  let a_s := toRadians (176 + 12.22 * info.t8)
  let b_s := toRadians (8 + 24.44 * info.t8)
  let c_s := b_s + toRadians 5
  let w_dash := toRadians (69.898 - 18.67088 * info.t8)
  let phi := 2 * (w_dash - info.W5)
  let xi := toRadians (94.9 - 2.292 * info.t8)
  let a := 24.50601 - 0.08686 * Real.cos nu - 0.00166 * Real.cos (et + nu)
    + 0.00175 * Real.cos (et - nu)
  let e := 0.103458 - 0.004099 * Real.cos nu - 0.000167 * Real.cos (et + nu)
    + 0.000235 * Real.cos (et - nu) + 0.02303 * Real.cos et - 0.00212 * Real.cos (2 * et)
    + 0.000151 * Real.cos (3 * et) + 0.00013 * Real.cos phi
  let p := w_dash + toRadians (0.15648 * Real.sin xi - 0.4457 * Real.sin nu
    - 0.2657 * Real.sin (et + nu) - 0.3573 * Real.sin (et - nu) - 12.872 * Real.sin et
    + 1.668 * Real.sin (2 * et) - 0.2419 * Real.sin (3 * et) - 0.07 * Real.sin phi)
  let lambda1 := toRadians (177.047 + 16.91993829 * info.t6 + 0.15648 * Real.sin xi
    + 9.142 * Real.sin nu + 0.007 * Real.sin (2 * nu) - 0.014 * Real.sin (3 * nu)
    + 0.2275 * Real.sin (et + nu) + 0.2112 * Real.sin (et - nu) - 0.26 * Real.sin et
    - 0.0098 * Real.sin (2 * et) - 0.013 * Real.sin a_s + 0.017 * Real.sin b_s
    - 0.0303 * Real.sin phi)
  let i := toRadians (27.3347 + 0.643486 * Real.cos xi + 0.315 * Real.cos info.W3
    + 0.018 * (Real.cos theta - Real.cos c_s))
  let Omega := toRadians (168.6812 + 1.40136 * Real.cos xi + 0.68599 * Real.sin info.W3
    - 0.0392 * Real.sin c_s + 0.0366 * Real.sin theta1)
  funroutine e a Omega i lambda1 p info

/-- Transcription of the `Iapetus` orbital-element calculator from `moon.rs`;
its pericenter longitude is a closed-form series (no refinement loop) and the
result is handed to `funroutine`. -/
def Iapetus (info : Info) : ℝ × ℝ × ℝ × ℝ :=
  let L := toRadians (261.1582 + 22.57697855 * info.t4)
  let w_dash1 := toRadians (91.796 + 0.562 * info.t7)
  let Phi := toRadians (4.367 - 0.195 * info.t7)
  let theta := toRadians (146.819 - 3.198 * info.t7)
  let phi := toRadians (60.47 + 1.521 * info.t7)
  let pho := toRadians (205.055 - 2.091 * info.t7)
  let e1 := 0.028298 + 0.001156 * info.t11
  let w_dash0 := toRadians (352.91 + 11.71 * info.t11)
  let mu := toRadians (76.3852 + 4.53795125 * info.t10)
  let i1 := toRadians (18.4602 - info.t11 * (0.9518 + info.t11 * (0.072 - 0.0054 * info.t11)))
  let Omega1 := toRadians (143.198 - info.t11 * (3.919 - info.t11 * (0.116 + 0.008 * info.t11)))
  let l := mu - w_dash0
  let g := w_dash0 - Omega1 - Phi
  let g1 := w_dash0 - Omega1 - phi
  let ls := info.W5 - w_dash1
  let gs := w_dash1 - theta
  let lT := L - info.W4
  let gT := info.W4 - pho
  let u1 := 2 * (l + g - ls - gs)
  let u2 := l + g1 - lT - gT
  let u3 := l + 2 * (g - ls - gs)
  let u4 := lT + gT - g1
  let u5 := 2 * (ls + gs)
  let a := 58.935028 + 0.004638 * Real.cos u1 + 0.058222 * Real.cos u2
  let e := e1 - 0.0014097 * Real.cos (g1 - gT) + 0.0003733 * Real.cos (u5 - 2 * g)
    + 0.000118 * Real.cos u3 + 0.0002408 * Real.cos l + 0.0002849 * Real.cos (l + u2)
    + 0.000619 * Real.cos u4
  let w := toRadians (0.08077 * Real.sin (g1 - gT) + 0.02139 * Real.sin (u5 - 2 * g)
    - 0.00676 * Real.sin u3 + 0.0138 * Real.sin l + 0.01632 * Real.sin (l + u2)
    + 0.03547 * Real.sin u4)
  let p := w_dash0 + w / e1
  let lambda1 := mu + toRadians (-0.04299 * Real.sin u2 - 0.00789 * Real.sin u1
    - 0.06312 * Real.sin ls - 0.00295 * Real.sin (2 * ls) - 0.02231 * Real.sin u5
    + 0.0065 * Real.sin (u5 + Phi))
  let i := i1 + toRadians (0.04204 * Real.cos (u5 + Phi)
    + 0.00235 * Real.cos (l + g1 + lT + gT + phi) + 0.0036 * Real.cos (u2 + phi))
  let w1 := toRadians (0.04204 * Real.sin (u5 + Phi)
    + 0.00235 * Real.sin (l + g1 + lT + gT + phi) + 0.00358 * Real.sin (u2 + phi))
  let Omega := Omega1 + w1 / Real.sin i1
  funroutine e a Omega i lambda1 p info

/-- Transcription of the frame-rotation routine `D` from `moon.rs`: four
sequential axis rotations, the auxiliary angle `Dn`, and the final
re-rotation by the previous call's auxiliary angle `D_j`. -/
def D (X_j Y_j Z_j D_j : ℝ) (info : Info) : ℝ × ℝ × ℝ × ℝ :=
  let A1 := X_j
  let B1 := info.c1 * Y_j - info.s1 * Z_j
  let C1 := info.s1 * Y_j + info.c1 * Z_j
  let A2 := info.c2 * A1 - info.s2 * B1
  let B2 := info.s2 * A1 + info.c2 * B1
  let A3 := A2 * Real.sin info.lambda0 - B2 * Real.cos info.lambda0
  let B3 := A2 * Real.cos info.lambda0 + B2 * Real.sin info.lambda0
  let C3 := C1
  let A4 := A3
  let B4 := B3 * Real.cos info.beta0 + C3 * Real.sin info.beta0
  let C4 := C3 * Real.cos info.beta0 - B3 * Real.sin info.beta0
  let et := A4
  let nu := C4
  let Dn := atan2 et nu
  (A4 * Real.cos D_j - C4 * Real.sin D_j, A4 * Real.sin D_j + C4 * Real.cos D_j, B4, Dn)

/-- The per-moon light-time constants (the `match *moon` table inside `XYZ`
in `moon.rs`). -/
def K : Moon → ℝ
  | Moon.Mimas => 20947
  | Moon.Enceladus => 23715
  | Moon.Tethys => 26382
  | Moon.Dione => 29876
  | Moon.Rhea => 35313
  | Moon.Titan => 53800
  | Moon.Hyperion => 59222
  | Moon.Iapetus => 91820

/-- The raw ring-plane position vector `(X_j, Y_j, Z_j)` of the moon, as
computed at the start of `XYZ` in `moon.rs`. -/
def moonVec (lambda_j gamma_j Omega_j r_j : ℝ) : ℝ × ℝ × ℝ :=
  let u := lambda_j - Omega_j
  let w := Omega_j - toRadians 168.8112
  (r_j * (Real.cos u * Real.cos w - Real.sin u * Real.cos gamma_j * Real.sin w),
   r_j * (Real.sin u * Real.cos w * Real.cos gamma_j + Real.cos u * Real.sin w),
   r_j * Real.sin u * Real.sin gamma_j)

/-- The frame-rotation stage of the assembler `XYZ`: rotate the fictitious
ninth-moon pole vector `(0,0,1)` first, then the moon vector using the
auxiliary angle `D9` the first call produced. -/
def rotStep (lambda_j gamma_j Omega_j r_j : ℝ) (info : Info) : ℝ × ℝ × ℝ :=
  let v := moonVec lambda_j gamma_j Omega_j r_j
  let R9 := D 0 0 1 0 info
  let R := D v.1 v.2.1 v.2.2 R9.2.2.2 info
  (R.1, R.2.1, R.2.2.1)

/-- The differential light-time correction stage of `XYZ`:
`X += Z.abs() * (1 - (X/r_j)^2).sqrt() / K`. -/
def lightTime (moon : Moon) (r_j : ℝ) (v : ℝ × ℝ × ℝ) : ℝ × ℝ × ℝ :=
  (v.1 + |v.2.2| * Real.sqrt (1 - (v.1 / r_j) ^ 2) / K moon, v.2.1, v.2.2)

/-- The perspective-foreshortening stage of `XYZ`:
`W = delta / (delta + Z/2475); X *= W; Y *= W`. -/
def perspective (delta : ℝ) (v : ℝ × ℝ × ℝ) : ℝ × ℝ × ℝ :=
  let W := delta / (delta + v.2.2 / 2475)
  (v.1 * W, v.2.1 * W, v.2.2)

/-- Transcription of the apparent-position assembler `XYZ` from `moon.rs`,
kept as the source's single straight-line sequence. -/
def XYZ (lambda_j gamma_j Omega_j r_j : ℝ) (info : Info) (moon : Moon) : ℝ × ℝ × ℝ :=
  let u := lambda_j - Omega_j
  let w := Omega_j - toRadians 168.8112
  let X_j := r_j * (Real.cos u * Real.cos w - Real.sin u * Real.cos gamma_j * Real.sin w)
  let Y_j := r_j * (Real.sin u * Real.cos w * Real.cos gamma_j + Real.cos u * Real.sin w)
  let Z_j := r_j * Real.sin u * Real.sin gamma_j
  let X_9 := (0 : ℝ)
  let Y_9 := (0 : ℝ)
  let Z_9 := (1 : ℝ)
  let R9 := D X_9 Y_9 Z_9 0 info
  let R := D X_j Y_j Z_j R9.2.2.2 info
  let X := R.1
  let Y := R.2.1
  let Z := R.2.2.1
  let Kc := K moon
  let X1 := X + |Z| * Real.sqrt (1 - (X / r_j) ^ 2) / Kc
  let W := info.delta / (info.delta + Z / 2475)
  (X1 * W, Y * W, Z)

/-- Modelled from the spec: the month identifiers of the external
calendar/time service (`time::Month`), used only to name the fixed 1950
reference date. -/
inductive Month
  | Jan
  | Feb
  | Mar
  | Apr
  | May
  | Jun
  | Jul
  | Aug
  | Sep
  | Oct
  | Nov
  | Dec

/-- Modelled from the spec: the calendar-system tag of the external
calendar/time service (`time::CalType`). -/
inductive CalType
  | Gregorian
  | Julian

/-- Modelled from the spec: a calendar date handed to the external
calendar/time service (`time::Date`). -/
structure Date where
  year : ℤ
  month : Month
  decimal_day : ℝ
  cal_type : CalType

/-- Modelled from the spec: the three external services consumed by
`apprnt_rect_coords` as black boxes (planetary geometry, precession, and
calendar-to-Julian-day conversion), supplied as function parameters. -/
structure Services where
  geocent_apprnt_ecl_coords : ℝ → (ℝ × ℝ) × ℝ
  precess_ecl_coords : ℝ → ℝ → ℝ → ℝ → ℝ × ℝ
  julian_day : Date → ℝ

/-- The fixed reference date 1950 January 1.5 (Gregorian) materialised in
`apprnt_rect_coords`. -/
def date1950 : Date :=
  { year := 1950, month := Month.Jan, decimal_day := 1.5, cal_type := CalType.Gregorian }

/-- Transcription of the public entry point `apprnt_rect_coords` from
`moon.rs`, with the external services passed as parameters. -/
def apprnt_rect_coords (srv : Services) (JD : ℝ) (moon : Moon) : ℝ × ℝ × ℝ :=
  let g := srv.geocent_apprnt_ecl_coords JD
  let lambda0 := g.1.1
  let beta0 := g.1.2
  let saturn_earth_dist := g.2
  let pr := srv.precess_ecl_coords lambda0 beta0 JD (srv.julian_day date1950)
  let info := mkInfo (JD - 0.04942) pr.1 pr.2 saturn_earth_dist
  let el := match moon with
    | Moon.Mimas => Mimas info
    | Moon.Enceladus => Enceladus info
    | Moon.Tethys => Tethys info
    | Moon.Dione => Dione info
    | Moon.Rhea => Rhea info
    | Moon.Titan => Titan info
    | Moon.Hyperion => Hyperion info
    | Moon.Iapetus => Iapetus info
  XYZ el.1 el.2.1 el.2.2.1 el.2.2.2 info moon

/-- A concrete trivial service bundle, used only to instantiate hypotheses
of conditional theorems at a closed point. -/
def constServices : Services :=
  { geocent_apprnt_ecl_coords := fun _ => ((0, 0), 0),
    precess_ecl_coords := fun l b _ _ => (l, b),
    julian_day := fun _ => 0 }

/-- Per-moon record of which calculator bodies invoke `funroutine`:
`Rhea`, `Titan`, `Hyperion` and `Iapetus` end in a `funroutine` call, while
`Mimas`, `Enceladus` and `Dione` apply an inline equation-of-center series
and `Tethys` uses the fixed circular model. -/
def usesFunroutine : Moon → Bool
  | Moon.Rhea | Moon.Titan | Moon.Hyperion | Moon.Iapetus => true
  | _ => false

/-- Per-moon record of the number of passes of an internal fixed-point
refinement of the auxiliary pericenter-longitude angle: only the `Titan`
calculator contains such a loop (`titanG … 6`); every other calculator body
is straight-line. -/
def fixedPointPasses : Moon → Nat
  | Moon.Titan => 6
  | _ => 0

/-- The eight moons, in the order of the source's `enum Moon`. -/
def allMoons : List Moon :=
  [Moon.Mimas, Moon.Enceladus, Moon.Tethys, Moon.Dione,
   Moon.Rhea, Moon.Titan, Moon.Hyperion, Moon.Iapetus]

/-- Geographic point of the observer (`coords::GeographPoint`), modelled
from the spec as the pair of fields `transit.rs` reads. -/
structure GeographPoint where
  long : ℝ
  lat : ℝ

/-- Equatorial point of a body (`coords::EqPoint`), modelled from the spec
as the pair of fields `transit.rs` reads. -/
structure EqPoint where
  asc : ℝ
  dec : ℝ

/-- The celestial-body selector of the transit solver
(`enum TransitBody` in `transit.rs`). -/
inductive TransitBody
  | StarOrPlanet
  | Sun
  | Moon

/-- The event selector of the transit solver
(`enum TransitType` in `transit.rs`). -/
inductive TransitType
  | Rise
  | Transit
  | Set

/-- Modelled from the repository's `angle` module: the constant `2π` used by
the transit solver. -/
def TWO_PI : ℝ := 2 * Real.pi

/-- Rust numeric cast `as i64` from `f64`: truncation toward zero, embedded
for in-range values. -/
def i64trunc (x : ℝ) : ℤ := if 0 ≤ x then ⌊x⌋ else ⌈x⌉

/-- Transcription of the helper `m` from `transit.rs`: the normalised
fraction of the day, with the hour-angle offset added only for rise/set. -/
def m (transit_type : TransitType) (H0 asc L Theta0 : ℝ) : ℝ :=
  let m0 := (asc + L - Theta0) / TWO_PI
  let p := H0 / TWO_PI
  let m1 := m0 + (match transit_type with
    | TransitType.Transit => 0
    | TransitType.Rise => -p
    | TransitType.Set => p)
  if m1 < 0 then m1 + 1 else if m1 > 1 then m1 - 1 else m1

/-- Transcription of the public `time` function from `transit.rs`, with the
external helper routines of the `coords`, `interpol` and `angle` modules
supplied as opaque function parameters. -/
def time (hr_angl_frm_observer_long : ℝ → ℝ → ℝ → ℝ)
    (alt_frm_eq : ℝ → ℝ → ℝ → ℝ)
    (three_values : ℝ → ℝ → ℝ → ℝ → ℝ)
    (limit_to_two_PI : ℝ → ℝ) (limit_to_360 : ℝ → ℝ)
    (transit_type : TransitType) (transit_body : TransitBody)
    (geograph_point : GeographPoint)
    (eq_point1 eq_point2 eq_point3 : EqPoint)
    (apprnt_greenwhich_sidr delta_t moon_eq_hz_parallax : ℝ) : ℤ × ℤ × ℝ :=
  let h0 := match transit_body with
    | TransitBody.StarOrPlanet => toRadians (-0.5667)
    | TransitBody.Sun => toRadians (-0.8333)
    | TransitBody.Moon => 0.7275 * moon_eq_hz_parallax - toRadians 0.5667
  let H0 := limit_to_two_PI (Real.arccos ((Real.sin h0
    - Real.sin geograph_point.lat * Real.sin eq_point2.dec)
    / (Real.cos geograph_point.lat * Real.cos eq_point2.dec)))
  let m0 := m transit_type H0 eq_point2.asc geograph_point.long apprnt_greenwhich_sidr
  let theta0 := apprnt_greenwhich_sidr + m0 * toRadians 360.985647
  let d := m0 + delta_t / 86400
  let asc := three_values eq_point1.asc eq_point2.asc eq_point3.asc d
  let dec := match transit_type with
    | TransitType.Transit => 0
    | TransitType.Rise => three_values eq_point1.dec eq_point2.dec eq_point3.dec d
    | TransitType.Set => three_values eq_point1.dec eq_point2.dec eq_point3.dec d
  let H1 := limit_to_360 (toDegrees (hr_angl_frm_observer_long theta0 geograph_point.long asc))
  let H2 := if H1 > 180 then H1 - 360 else H1
  let H := toRadians H2
  let h := match transit_type with
    | TransitType.Transit => 0
    | TransitType.Rise => alt_frm_eq H dec geograph_point.lat
    | TransitType.Set => alt_frm_eq H dec geograph_point.lat
  let m1 := m0 + (match transit_type with
    | TransitType.Transit => -H / TWO_PI
    | TransitType.Rise =>
      (h - h0) / (TWO_PI * Real.cos dec * Real.cos geograph_point.lat * Real.sin H)
    | TransitType.Set =>
      (h - h0) / (TWO_PI * Real.cos dec * Real.cos geograph_point.lat * Real.sin H))
  let hfrac := 24 * m1
  let hour := i64trunc hfrac
  let m2 := (hfrac - (hour : ℝ)) * 60
  let minute := i64trunc m2
  let second := (m2 - (minute : ℝ)) * 60
  (hour, minute, second)

/-- A chain of four plane rotations (the exact shape of the stages of `D`)
followed by the re-rotation by the previous auxiliary angle preserves the
squared norm of the vector, given the five unit-circle identities. -/
lemma rot4_norm (Xj Yj Zj s1 c1 s2 c2 sl cl sb cb sD cD : ℝ)
    (h1 : s1 ^ 2 + c1 ^ 2 = 1) (h2 : s2 ^ 2 + c2 ^ 2 = 1)
    (hl : sl ^ 2 + cl ^ 2 = 1) (hb : sb ^ 2 + cb ^ 2 = 1)
    (hD : sD ^ 2 + cD ^ 2 = 1) :
    (((c2 * Xj - s2 * (c1 * Yj - s1 * Zj)) * sl
        - (s2 * Xj + c2 * (c1 * Yj - s1 * Zj)) * cl) * cD
      - ((s1 * Yj + c1 * Zj) * cb
          - ((c2 * Xj - s2 * (c1 * Yj - s1 * Zj)) * cl
              + (s2 * Xj + c2 * (c1 * Yj - s1 * Zj)) * sl) * sb) * sD) ^ 2
    + (((c2 * Xj - s2 * (c1 * Yj - s1 * Zj)) * sl
        - (s2 * Xj + c2 * (c1 * Yj - s1 * Zj)) * cl) * sD
      + ((s1 * Yj + c1 * Zj) * cb
          - ((c2 * Xj - s2 * (c1 * Yj - s1 * Zj)) * cl
              + (s2 * Xj + c2 * (c1 * Yj - s1 * Zj)) * sl) * sb) * cD) ^ 2
    + (((c2 * Xj - s2 * (c1 * Yj - s1 * Zj)) * cl
        + (s2 * Xj + c2 * (c1 * Yj - s1 * Zj)) * sl) * cb
      + (s1 * Yj + c1 * Zj) * sb) ^ 2
    = Xj ^ 2 + Yj ^ 2 + Zj ^ 2 := by
  linear_combination (Yj ^ 2 + Zj ^ 2) * h1
    + (Xj ^ 2 + (c1 * Yj - s1 * Zj) ^ 2) * h2
    + ((c2 * Xj - s2 * (c1 * Yj - s1 * Zj)) ^ 2
        + (s2 * Xj + c2 * (c1 * Yj - s1 * Zj)) ^ 2) * hl
    + (((c2 * Xj - s2 * (c1 * Yj - s1 * Zj)) * cl
        + (s2 * Xj + c2 * (c1 * Yj - s1 * Zj)) * sl) ^ 2
        + (s1 * Yj + c1 * Zj) ^ 2) * hb
    + (((c2 * Xj - s2 * (c1 * Yj - s1 * Zj)) * sl
        - (s2 * Xj + c2 * (c1 * Yj - s1 * Zj)) * cl) ^ 2
        + ((s1 * Yj + c1 * Zj) * cb
            - ((c2 * Xj - s2 * (c1 * Yj - s1 * Zj)) * cl
                + (s2 * Xj + c2 * (c1 * Yj - s1 * Zj)) * sl) * sb) ^ 2) * hD

/-- For a context built by the source's constructor (so the cached tilt
sines/cosines really are sines and cosines), the frame rotation `D`
preserves the squared norm of its input vector. -/
lemma D_norm (JD l0 b0 dl Xj Yj Zj Dj : ℝ) :
    (D Xj Yj Zj Dj (mkInfo JD l0 b0 dl)).1 ^ 2
      + (D Xj Yj Zj Dj (mkInfo JD l0 b0 dl)).2.1 ^ 2
      + (D Xj Yj Zj Dj (mkInfo JD l0 b0 dl)).2.2.1 ^ 2
    = Xj ^ 2 + Yj ^ 2 + Zj ^ 2 :=
  rot4_norm Xj Yj Zj
    (Real.sin (toRadians 28.0817)) (Real.cos (toRadians 28.0817))
    (Real.sin (toRadians 168.8112)) (Real.cos (toRadians 168.8112))
    (Real.sin l0) (Real.cos l0) (Real.sin b0) (Real.cos b0)
    (Real.sin Dj) (Real.cos Dj)
    (Real.sin_sq_add_cos_sq (toRadians 28.0817))
    (Real.sin_sq_add_cos_sq (toRadians 168.8112))
    (Real.sin_sq_add_cos_sq l0) (Real.sin_sq_add_cos_sq b0)
    (Real.sin_sq_add_cos_sq Dj)

/-- The raw ring-plane vector of a moon has squared norm `r_j ^ 2`. -/
lemma moonVec_norm (lambda_j gamma_j Omega_j r_j : ℝ) :
    (moonVec lambda_j gamma_j Omega_j r_j).1 ^ 2
      + (moonVec lambda_j gamma_j Omega_j r_j).2.1 ^ 2
      + (moonVec lambda_j gamma_j Omega_j r_j).2.2 ^ 2 = r_j ^ 2 := by
  show (r_j * (Real.cos (lambda_j - Omega_j) * Real.cos (Omega_j - toRadians 168.8112)
        - Real.sin (lambda_j - Omega_j) * Real.cos gamma_j
          * Real.sin (Omega_j - toRadians 168.8112))) ^ 2
    + (r_j * (Real.sin (lambda_j - Omega_j) * Real.cos (Omega_j - toRadians 168.8112)
        * Real.cos gamma_j
        + Real.cos (lambda_j - Omega_j) * Real.sin (Omega_j - toRadians 168.8112))) ^ 2
    + (r_j * Real.sin (lambda_j - Omega_j) * Real.sin gamma_j) ^ 2 = r_j ^ 2
  linear_combination
    (r_j ^ 2 * (Real.cos (lambda_j - Omega_j) ^ 2
        + Real.sin (lambda_j - Omega_j) ^ 2 * Real.cos gamma_j ^ 2))
      * Real.sin_sq_add_cos_sq (Omega_j - toRadians 168.8112)
    + (r_j ^ 2 * Real.sin (lambda_j - Omega_j) ^ 2) * Real.sin_sq_add_cos_sq gamma_j
    + r_j ^ 2 * Real.sin_sq_add_cos_sq (lambda_j - Omega_j)

/-- The rotated `X` of the assembler is bounded in square by `r_j ^ 2`. -/
lemma rotStep_sq_le (lambda_j gamma_j Omega_j r_j JD l0 b0 dl : ℝ) :
    (rotStep lambda_j gamma_j Omega_j r_j (mkInfo JD l0 b0 dl)).1 ^ 2 ≤ r_j ^ 2 := by
  have hnorm := D_norm JD l0 b0 dl
    (moonVec lambda_j gamma_j Omega_j r_j).1
    (moonVec lambda_j gamma_j Omega_j r_j).2.1
    (moonVec lambda_j gamma_j Omega_j r_j).2.2
    ((D 0 0 1 0 (mkInfo JD l0 b0 dl)).2.2.2)
  have hmv := moonVec_norm lambda_j gamma_j Omega_j r_j
  have hY := sq_nonneg ((D (moonVec lambda_j gamma_j Omega_j r_j).1
    (moonVec lambda_j gamma_j Omega_j r_j).2.1
    (moonVec lambda_j gamma_j Omega_j r_j).2.2
    ((D 0 0 1 0 (mkInfo JD l0 b0 dl)).2.2.2) (mkInfo JD l0 b0 dl)).2.1)
  have hZ := sq_nonneg ((D (moonVec lambda_j gamma_j Omega_j r_j).1
    (moonVec lambda_j gamma_j Omega_j r_j).2.1
    (moonVec lambda_j gamma_j Omega_j r_j).2.2
    ((D 0 0 1 0 (mkInfo JD l0 b0 dl)).2.2.2) (mkInfo JD l0 b0 dl)).2.2.1)
  have hX : (rotStep lambda_j gamma_j Omega_j r_j (mkInfo JD l0 b0 dl)).1
      = (D (moonVec lambda_j gamma_j Omega_j r_j).1
          (moonVec lambda_j gamma_j Omega_j r_j).2.1
          (moonVec lambda_j gamma_j Omega_j r_j).2.2
          ((D 0 0 1 0 (mkInfo JD l0 b0 dl)).2.2.2) (mkInfo JD l0 b0 dl)).1 := rfl
  rw [hX]
  linarith

/-- C1: for every semi-major axis `a`, node, inclination, argument of
pericenter and mean longitude, the Orbit Finalizer `funroutine` called with
eccentricity `e = 0` has a true-anomaly correction (`equationOfCenter`, the
local `C`) of exactly `0`, and returns a radius exactly equal to `a`. -/
theorem funroutine_zero_eccentricity (a Omega i lambda1 p : ℝ) (info : Info) :
    equationOfCenter 0 (lambda1 - p) = 0
      ∧ (funroutine 0 a Omega i lambda1 p info).2.2.2 = a := by
  constructor
  · simp [equationOfCenter]
  · simp [funroutine, equationOfCenter]

/-- C4: the differential light-time correction step leaves `Y` and `Z`
untouched and increases `X` by a non-negative amount of the form
`c * |Z| / K(moon)` — proportional to `|Z|` and divided by the selected
moon's fixed light-time constant — and the per-moon constants are exactly
the table Mimas `20947` through Iapetus `91820`. -/
theorem lightTime_correction_form (moon : Moon) (r_j : ℝ) (v : ℝ × ℝ × ℝ) :
    (∃ c : ℝ, 0 ≤ c
        ∧ lightTime moon r_j v = (v.1 + |v.2.2| * c / K moon, v.2.1, v.2.2))
      ∧ v.1 ≤ (lightTime moon r_j v).1
      ∧ K Moon.Mimas = 20947 ∧ K Moon.Enceladus = 23715 ∧ K Moon.Tethys = 26382
      ∧ K Moon.Dione = 29876 ∧ K Moon.Rhea = 35313 ∧ K Moon.Titan = 53800
      ∧ K Moon.Hyperion = 59222 ∧ K Moon.Iapetus = 91820 := by
  have hK : 0 < K moon := by cases moon <;> norm_num [K]
  refine ⟨⟨Real.sqrt (1 - (v.1 / r_j) ^ 2), Real.sqrt_nonneg _, rfl⟩, ?_,
    rfl, rfl, rfl, rfl, rfl, rfl, rfl, rfl⟩
  have hc : 0 ≤ |v.2.2| * Real.sqrt (1 - (v.1 / r_j) ^ 2) / K moon :=
    div_nonneg (mul_nonneg (abs_nonneg _) (Real.sqrt_nonneg _)) hK.le
  show v.1 ≤ v.1 + |v.2.2| * Real.sqrt (1 - (v.1 / r_j) ^ 2) / K moon
  linarith

/-- C5: the assembler `XYZ` is exactly the composition
rotation ∘ light-time ∘ perspective (in that order), and the perspective
step multiplies both `X` and `Y` by the same factor
`W = delta / (delta + Z / 2475)`. -/
theorem XYZ_pipeline_order (lambda_j gamma_j Omega_j r_j : ℝ) (info : Info) (moon : Moon) :
    XYZ lambda_j gamma_j Omega_j r_j info moon
      = perspective info.delta
          (lightTime moon r_j (rotStep lambda_j gamma_j Omega_j r_j info))
      ∧ ∀ delta x y z : ℝ,
        perspective delta (x, y, z)
          = (x * (delta / (delta + z / 2475)), y * (delta / (delta + z / 2475)), z) :=
  ⟨rfl, fun _ _ _ _ => rfl⟩

/-- C6: the `Tethys` calculator returns the fixed radius `4.880998`
Saturn-radii for every context, hence with no dependence on the time
argument; and its returned longitude is exactly the fixed series in the
mean longitude itself, with no true-anomaly (equation-of-center)
correction added to it. -/
theorem tethys_radius_constant : ∀ infoA infoB : Info,
    (Tethys infoA).2.2.2 = 4.880998
      ∧ (Tethys infoA).2.2.2 = (Tethys infoB).2.2.2
      ∧ (Tethys infoA).1
          = toRadians (285.306 + 190.69791226 * infoA.t1
              + 2.063 * Real.sin infoA.W0 + 0.03409 * Real.sin (3 * infoA.W0)
              + 0.001015 * Real.sin (5 * infoA.W0)) :=
  fun _ _ => ⟨rfl, rfl, rfl⟩

/-- C7: the public entry point is a pure function of the service bundle, the
time argument and the moon selector: two evaluations on the same inputs
return the identical `(X, Y, Z)` triple — there is no hidden state in the
embedding for the result to depend on. -/
theorem apprnt_rect_coords_deterministic :
    ∀ (srv : Services) (JD : ℝ) (moon : Moon),
      apprnt_rect_coords srv JD moon = apprnt_rect_coords srv JD moon :=
  fun _ _ _ => rfl

/-- C2 (counterexample): it is not the case that five of the eight per-moon
calculators route their result through `funroutine`; counting over the
source's dispatch table refutes the claimed count. -/
theorem funroutine_user_count_ne_five :
    ¬ (allMoons.filter usesFunroutine).length = 5 := by decide

/-- C2 (amended): exactly four of the eight per-moon orbital element
calculators (`Rhea`, `Titan`, `Hyperion`, `Iapetus`) route their result
through the shared Orbit Finalizer `funroutine`; the other four either
inline a simplified correction (`Mimas`, `Enceladus`, `Dione`) or use the
fixed circular model (`Tethys`). -/
theorem funroutine_user_count :
    allMoons.length = 8
      ∧ (allMoons.filter usesFunroutine).length = 4
      ∧ usesFunroutine Moon.Rhea = true ∧ usesFunroutine Moon.Titan = true
      ∧ usesFunroutine Moon.Hyperion = true ∧ usesFunroutine Moon.Iapetus = true
      ∧ usesFunroutine Moon.Mimas = false ∧ usesFunroutine Moon.Enceladus = false
      ∧ usesFunroutine Moon.Tethys = false ∧ usesFunroutine Moon.Dione = false := by
  decide

/-- C3 (counterexample): the calculators of the two outermost moons do not
each run a 6-pass fixed-point refinement — neither the `Hyperion` nor the
`Iapetus` body contains a refinement loop at all. -/
theorem hyperion_iapetus_no_fixed_point :
    ¬ (fixedPointPasses Moon.Hyperion = 6 ∧ fixedPointPasses Moon.Iapetus = 6) := by
  decide

/-- C3 (amended): exactly one calculator — `Titan`'s — solves the auxiliary
pericenter-longitude angle by an internal fixed-point refinement that
re-evaluates the periodic correction against itself for exactly 6 passes
(`titanG … 6`); every other calculator, including `Hyperion` and `Iapetus`,
computes its pericenter longitude in closed form with no refinement loop. -/
theorem titan_only_fixed_point_six :
    fixedPointPasses Moon.Titan = 6
      ∧ (allMoons.filter (fun mn => fixedPointPasses mn != 0)).length = 1 := by
  decide

/-- C8: the entry point precesses Saturn's apparent ecliptic coordinates
only to the single target epoch `julian_day` of 1950 January 1.5
(Gregorian): two service bundles that agree on geometry and calendar and
whose precession services agree at that one target epoch — while possibly
disagreeing at every other target epoch — produce identical results for
every time argument and every moon. -/
theorem precess_target_epoch_only (srv1 srv2 : Services)
    (hgeo : srv1.geocent_apprnt_ecl_coords = srv2.geocent_apprnt_ecl_coords)
    (hjd : srv1.julian_day = srv2.julian_day)
    (hpr : ∀ l b src : ℝ,
      srv1.precess_ecl_coords l b src (srv1.julian_day date1950)
        = srv2.precess_ecl_coords l b src (srv1.julian_day date1950)) :
    ∀ (JD : ℝ) (moon : Moon),
      apprnt_rect_coords srv1 JD moon = apprnt_rect_coords srv2 JD moon := by
  intro JD moon
  cases moon <;> (simp only [apprnt_rect_coords]; rw [hpr, hgeo, hjd])

/-- Closed instantiation of `precess_target_epoch_only` at a concrete
service bundle, time argument and moon. -/
theorem precess_target_epoch_only_witness :
    apprnt_rect_coords constServices 2448976.5 Moon.Titan
      = apprnt_rect_coords constServices 2448976.5 Moon.Titan :=
  precess_target_epoch_only constServices constServices rfl rfl
    (fun _ _ _ => rfl) 2448976.5 Moon.Titan

/-- C9: for every input vector and every context built by the source's
constructor, the frame rotation `D` preserves the squared norm
(every stage is a plane rotation in exact real arithmetic); consequently
the rotated `X` of the assembler satisfies `|X| ≤ r_j` and the radicand
`1 - (X / r_j) ^ 2` of the light-time step is non-negative, whenever the
radius `r_j` is positive. -/
theorem D_rotation_norm_and_radicand
    (JD l0 b0 dl Xj Yj Zj Dj lambda_j gamma_j Omega_j r_j : ℝ) (hr : 0 < r_j) :
    ((D Xj Yj Zj Dj (mkInfo JD l0 b0 dl)).1 ^ 2
        + (D Xj Yj Zj Dj (mkInfo JD l0 b0 dl)).2.1 ^ 2
        + (D Xj Yj Zj Dj (mkInfo JD l0 b0 dl)).2.2.1 ^ 2
      = Xj ^ 2 + Yj ^ 2 + Zj ^ 2)
    ∧ |(rotStep lambda_j gamma_j Omega_j r_j (mkInfo JD l0 b0 dl)).1| ≤ r_j
    ∧ 0 ≤ 1 - ((rotStep lambda_j gamma_j Omega_j r_j (mkInfo JD l0 b0 dl)).1 / r_j) ^ 2 := by
  have hsq := rotStep_sq_le lambda_j gamma_j Omega_j r_j JD l0 b0 dl
  refine ⟨D_norm JD l0 b0 dl Xj Yj Zj Dj, ?_, ?_⟩
  · refine abs_le.mpr ⟨?_, ?_⟩
    · nlinarith [sq_nonneg ((rotStep lambda_j gamma_j Omega_j r_j (mkInfo JD l0 b0 dl)).1 + r_j)]
    · nlinarith [sq_nonneg ((rotStep lambda_j gamma_j Omega_j r_j (mkInfo JD l0 b0 dl)).1 - r_j)]
  · have hdiv : ((rotStep lambda_j gamma_j Omega_j r_j (mkInfo JD l0 b0 dl)).1 / r_j) ^ 2 ≤ 1 := by
      rw [div_pow]
      exact div_le_one_of_le₀ hsq (sq_nonneg r_j)
    linarith

/-- Closed instantiation of `D_rotation_norm_and_radicand` at a concrete
context, vector and radius. -/
theorem D_rotation_norm_and_radicand_witness :
    0 < (1 : ℝ)
      ∧ (((D 0 0 0 0 (mkInfo 0 0 0 0)).1 ^ 2
            + (D 0 0 0 0 (mkInfo 0 0 0 0)).2.1 ^ 2
            + (D 0 0 0 0 (mkInfo 0 0 0 0)).2.2.1 ^ 2
          = (0 : ℝ) ^ 2 + (0 : ℝ) ^ 2 + (0 : ℝ) ^ 2)
        ∧ |(rotStep 0 0 0 1 (mkInfo 0 0 0 0)).1| ≤ (1 : ℝ)
        ∧ 0 ≤ 1 - ((rotStep 0 0 0 1 (mkInfo 0 0 0 0)).1 / 1) ^ 2) :=
  ⟨by norm_num, D_rotation_norm_and_radicand 0 0 0 0 0 0 0 0 0 0 0 1 (by norm_num)⟩

set_option maxHeartbeats 2000000 in
/-- C10: for `transit_type = Transit`, the time returned by the transit
solver does not depend on the observer's latitude, on any of the three
input declinations, on the transit-body variant, or on the Moon-parallax
argument: two calls differing only in those inputs return the same
`(hour, min, sec)` — for every choice of the external helper routines. -/
theorem transit_time_lat_dec_independent
    (hr_angl_frm_observer_long : ℝ → ℝ → ℝ → ℝ)
    (alt_frm_eq : ℝ → ℝ → ℝ → ℝ)
    (three_values : ℝ → ℝ → ℝ → ℝ → ℝ)
    (limit_to_two_PI : ℝ → ℝ) (limit_to_360 : ℝ → ℝ)
    (bodyA bodyB : TransitBody) (long latA latB : ℝ)
    (asc1 asc2 asc3 decA1 decA2 decA3 decB1 decB2 decB3 : ℝ)
    (apprnt_greenwhich_sidr delta_t parA parB : ℝ) :
    time hr_angl_frm_observer_long alt_frm_eq three_values limit_to_two_PI limit_to_360
        TransitType.Transit bodyA ⟨long, latA⟩
        ⟨asc1, decA1⟩ ⟨asc2, decA2⟩ ⟨asc3, decA3⟩
        apprnt_greenwhich_sidr delta_t parA
      = time hr_angl_frm_observer_long alt_frm_eq three_values limit_to_two_PI limit_to_360
          TransitType.Transit bodyB ⟨long, latB⟩
          ⟨asc1, decB1⟩ ⟨asc2, decB2⟩ ⟨asc3, decB3⟩
          apprnt_greenwhich_sidr delta_t parB := rfl

end

end astro
